import Mathlib

/-!
Verification of the D3D12TranslationLayer asynchronous query lifecycle
(`src/d3d12translationlayer/Query.cpp`).

The shallow embedding below models:

* `ImmediateContext` — the owning context's epoch bookkeeping, reduced to the
  command-list ID being built (`GetCommandListID`), the last completed fence
  value (`GetCompletedFenceValue`), and an oracle telling whether a
  `SubmitCommandList` call would fail.  The context methods themselves are not
  part of `Query.cpp`; they are modelled from the specification (see the doc
  comments on each one).
* `QueryState` — the `Async`/`Query` object: its type (`m_Type`), the instance
  capacity (`m_InstancesPerQuery`), the rotating instance counter
  (`m_CurrentInstance`), the epoch recorded by `End`
  (`m_EndedCommandListID`), and the contents of the readback result buffer,
  one 64-bit slot per instance (this `Query` has `GetDataSize12() = 8` and a
  single sub-query, so each instance is exactly one 64-bit counter).

Machine integers are `Nat` reduced modulo `2 ^ 64` exactly where the C++ code
performs 64-bit arithmetic (`+=` on `UINT64` wraps).  GPU-produced values
(timestamps resolved by `ResolveQueryData`) enter the model as explicit
parameters of `Suspend`/`EndInternal`.  Fallible paths return `Except`/
`Option`; the `noexcept` try/catch in `FlushAndPrep` is modelled by the
`Option` result of `SubmitCommandList`.
-/

/-- The modulus of 64-bit unsigned arithmetic (`UINT64` wraps at `2 ^ 64`). -/
def UINT64_MOD : Nat := 2 ^ 64

/-- `EQueryType` as used by `Query.cpp`: `GetType12`/`GetHeapType12` assert on
every tag other than `e_QUERY_TIMESTAMP`, so the timestamp kind is the only
one this source supports. -/
inductive EQueryType where
  | timestamp
  deriving DecidableEq, Repr

/-- Error conditions raised via `ThrowFailure` on the paths modelled here.
`GetDataInternal` throws `E_INVALIDARG` when the destination is too small. -/
inductive QueryError where
  | invalidArg
  deriving DecidableEq, Repr

/-- The owning `ImmediateContext`, reduced to its epoch bookkeeping.
`commandListID` is `GetCommandListID()` (the epoch of the batch being built,
not yet submitted); `completedFenceValue` is `GetCompletedFenceValue()` (the
last epoch confirmed finished by the GPU); `submitFails` is an oracle telling
whether a `SubmitCommandList()` call would throw (allocation or device
failure).  The spec requires `completedFenceValue ≤ commandListID`. -/
structure ImmediateContext where
  commandListID : Nat
  completedFenceValue : Nat
  submitFails : Bool
  deriving DecidableEq, Repr

/-- Modelled from the spec: `submitPendingWork()` ("submit now") "may fail
(allocation or device failure)".  On success the batch being built is
submitted, so a new current epoch begins; the fence value is untouched
(submission does not wait for completion).  `ImmediateContext::SubmitCommandList`
itself is not part of `Query.cpp`. -/
def ImmediateContext.SubmitCommandList (ctx : ImmediateContext) :
    Option ImmediateContext :=
  if ctx.submitFails then none
  else some { ctx with commandListID := ctx.commandListID + 1 }

/-- Modelled from the spec: `waitForAllWorkComplete()` is a "blocking 'wait
until all submitted work completes' operation".  Submitted batches are those
whose epoch is below the current one, so after the wait the completed fence
covers every epoch below `commandListID`; the fence stays monotone.
`ImmediateContext::WaitForCompletion` itself is not part of `Query.cpp`. -/
def ImmediateContext.WaitForCompletion (ctx : ImmediateContext) :
    ImmediateContext :=
  { ctx with
    completedFenceValue := max ctx.completedFenceValue (ctx.commandListID - 1) }

/-- Modelled from the spec: `End()` "records `lastIssuedEpoch = currentEpoch()`
from the owning context", the epoch of the batch being built, not yet
submitted.  `ImmediateContext::GetCommandListIDWithCommands` itself is not
part of `Query.cpp`. -/
def ImmediateContext.GetCommandListIDWithCommands (ctx : ImmediateContext) :
    Nat :=
  ctx.commandListID

/-- State of an `Async`/`Query` object.  `resultBuffer` holds the contents of
the readback result buffer `m_spResultBuffer` as one 64-bit slot per
instance (`GetDataSize12() = sizeof(UINT64)` and `NumSubQueries = 1` for this
`Query`, so instance `i` occupies exactly slot `i`).  The destructor-only
bookkeeping (`m_LastUsedCommandListID`, `m_spQueryHeap`) is not modelled. -/
structure QueryState where
  m_Type : EQueryType
  m_InstancesPerQuery : Nat
  m_CurrentInstance : Nat
  m_EndedCommandListID : Nat
  resultBuffer : Nat → Nat

/-- Writing the 64-bit slot `i` of a readback buffer. -/
def writeSlot (buf : Nat → Nat) (i v : Nat) : Nat → Nat :=
  fun j => if j = i then v else buf j

/-- `Query::QueryIndex`: instance `i` uses slot `i`. -/
def Query.QueryIndex (Instance : Nat) : Nat := Instance

/-- The accumulation loop of `Query::GetDataInternal`: `TempBuffer[0]` starts
at zero and receives `+= pSrc[0]` (64-bit wrapping addition) for each
instance `0 .. n-1`; with one sub-query and one counter per instance, the
walking source pointer reads exactly slot `i` at iteration `i`. -/
def accumLoop (buf : Nat → Nat) : Nat → Nat
  | 0 => 0
  | n + 1 => (accumLoop buf n + buf n) % UINT64_MOD

/-- The fold loop of `Query::AdvanceInstance`: `pInstance0[0]` accumulates
`+= pInstance[0]` (64-bit wrapping addition) for each instance `1 .. n`,
starting from the current contents of slot `0`. -/
def foldAcc (buf : Nat → Nat) : Nat → Nat
  | 0 => buf 0
  | n + 1 => (foldAcc buf n + buf (n + 1)) % UINT64_MOD

/-- Plain (unwrapped) sum of the slots `0 .. n-1`, used to state results. -/
def sumRange (f : Nat → Nat) : Nat → Nat
  | 0 => 0
  | n + 1 => sumRange f n + f n

/-- `Query::Initialize` (combined with the `Async` constructor): allocates the
query heap and result buffer for `InstancesPerQuery` instances and sets
`m_CurrentInstance = 0`; `m_EndedCommandListID` starts at `0` from the
`Async` constructor.  A fresh readback region is modelled as all-zero slots;
no claim depends on the contents of never-written slots because both
accumulation loops only visit recorded instances. -/
def Query.Init (ty : EQueryType) (InstancesPerQuery : Nat) : QueryState :=
  { m_Type := ty
    m_InstancesPerQuery := InstancesPerQuery
    m_CurrentInstance := 0
    m_EndedCommandListID := 0
    resultBuffer := fun _ => 0 }

/-- `Query::Suspend`: issues `EndQuery` + `ResolveQueryData` for the instance
at `m_CurrentInstance`, which makes the GPU write the 64-bit measurement
value `v` into slot `QueryIndex(m_CurrentInstance)` of the result buffer.
The GPU value is an input of the model; the hardware writes 64 bits, hence
the reduction modulo `UINT64_MOD`.  The context notification
(`AdditionalCommandsAdded`) and `m_LastUsedCommandListID` only matter for
destruction and are not modelled. -/
def Query.Suspend (v : Nat) (q : QueryState) : QueryState :=
  { q with
    resultBuffer :=
      writeSlot q.resultBuffer (Query.QueryIndex q.m_CurrentInstance)
        (v % UINT64_MOD) }

/-- `Query::EndInternal`: resets `m_CurrentInstance` to `0`, records the
current instance via `Suspend` (GPU value `v`), then advances
`m_CurrentInstance` by one. -/
def Query.EndInternal (v : Nat) (q : QueryState) : QueryState :=
  let q1 := { q with m_CurrentInstance := 0 }
  let q2 := Query.Suspend v q1
  { q2 with m_CurrentInstance := q2.m_CurrentInstance + 1 }

/-- `Async::End`: invokes the kind-specific `EndInternal` (with GPU value `v`)
and then sets `m_EndedCommandListID` from the owning context.  No submission
and no wait happens here: the context is read, never changed. -/
def Async.End (v : Nat) (q : QueryState) (ctx : ImmediateContext) :
    QueryState :=
  let q1 := Query.EndInternal v q
  { q1 with
    m_EndedCommandListID := ImmediateContext.GetCommandListIDWithCommands ctx }

/-- `Query::GetDataInternal` for this source's only query kind
(`e_QUERY_TIMESTAMP`): validates `DataSize >= sizeof(UINT64)` (throwing
`E_INVALIDARG` before any write otherwise), zero-initializes the destination
(`*pDest = 0`), accumulates every recorded instance into `TempBuffer[0]`
with 64-bit wrapping addition, and finally writes the accumulated timestamp
into the destination only when it exceeds the destination's (just zeroed)
contents.  `dest` is the destination's incoming 64-bit value; the returned
value is the destination's contents after the call. -/
def Query.GetDataInternal (q : QueryState) (dest DataSize : Nat) :
    Except QueryError Nat :=
  match q.m_Type with
  | EQueryType.timestamp =>
    if DataSize < 8 then
      Except.error QueryError.invalidArg
    else
      let destAfterInit : Nat := 0
      let Timestamp := accumLoop q.resultBuffer q.m_CurrentInstance
      if Timestamp > destAfterInit then Except.ok Timestamp
      else Except.ok destAfterInit

/-- `Query::AdvanceInstance`: on the cheap path (`m_CurrentInstance + 1 <
m_InstancesPerQuery`) just advances the instance counter.  On capacity
exhaustion it blocks via `WaitForCompletion`, folds instances
`1 .. m_CurrentInstance` into instance `0` element-wise with 64-bit wrapping
addition, and resets `m_CurrentInstance` to `1` (instance 0 keeps the
accumulated baseline). -/
def Query.AdvanceInstance (q : QueryState) (ctx : ImmediateContext) :
    QueryState × ImmediateContext :=
  if q.m_CurrentInstance + 1 < q.m_InstancesPerQuery then
    ({ q with m_CurrentInstance := q.m_CurrentInstance + 1 }, ctx)
  else
    let ctx2 := ImmediateContext.WaitForCompletion ctx
    let buf2 :=
      writeSlot q.resultBuffer 0 (foldAcc q.resultBuffer q.m_CurrentInstance)
    ({ q with resultBuffer := buf2, m_CurrentInstance := 1 }, ctx2)

/-- The fence comparison ending `Async::FlushAndPrep`: the result is ready
exactly when the completed fence has reached `m_EndedCommandListID`. -/
def Async.fenceCheck (q : QueryState) (ctx : ImmediateContext) :
    Bool × ImmediateContext :=
  if ctx.completedFenceValue < q.m_EndedCommandListID then (false, ctx)
  else (true, ctx)

/-- `Async::FlushAndPrep`: if the epoch recorded by `End` is still the one
being built, either fail fast (`DoNotFlush`) or force submission, converting
a submission failure (`_com_error` / `bad_alloc`) into a `false` result as
the method is `noexcept`; then report readiness from the completed fence. -/
def Async.FlushAndPrep (q : QueryState) (ctx : ImmediateContext)
    (DoNotFlush : Bool) : Bool × ImmediateContext :=
  if q.m_EndedCommandListID = ctx.commandListID then
    if DoNotFlush then (false, ctx)
    else
      match ImmediateContext.SubmitCommandList ctx with
      | none => (false, ctx)
      | some ctx2 => Async.fenceCheck q ctx2
  else Async.fenceCheck q ctx

/-- Result of `Async::GetData`: the boolean return value, the context after
the call (submission may have happened), the destination buffer's contents
after the call (`none` models a null `pData`), and whether an exception
escaped `GetDataInternal` (which is fatal, as `GetData` is `noexcept`). -/
structure GetDataOut where
  ready : Bool
  ctxOut : ImmediateContext
  destOut : Option Nat
  threw : Bool
  deriving DecidableEq, Repr

/-- The tail of `Async::GetData`: when a destination and a nonzero size are
given, invoke the kind-specific `GetDataInternal`; return `true` always. -/
def Async.runGetDataInternal (q : QueryState) (ctx : ImmediateContext)
    (dest : Option Nat) (DataSize : Nat) : GetDataOut :=
  match dest with
  | none => { ready := true, ctxOut := ctx, destOut := none, threw := false }
  | some d =>
    if DataSize ≠ 0 then
      match Query.GetDataInternal q d DataSize with
      | Except.ok d2 =>
        { ready := true, ctxOut := ctx, destOut := some d2, threw := false }
      | Except.error _ =>
        { ready := true, ctxOut := ctx, destOut := some d, threw := true }
    else { ready := true, ctxOut := ctx, destOut := some d, threw := false }

/-- `Async::GetData`: unless `AsyncGetData` short-circuits the gate entirely
(C++ `&&` does not even evaluate `FlushAndPrep` then), consult
`FlushAndPrep`; a `false` gate returns not-ready without touching the
destination. -/
def Async.GetData (q : QueryState) (ctx : ImmediateContext)
    (dest : Option Nat) (DataSize : Nat) (DoNotFlush AsyncGetData : Bool) :
    GetDataOut :=
  if AsyncGetData then Async.runGetDataInternal q ctx dest DataSize
  else
    match Async.FlushAndPrep q ctx DoNotFlush with
    | (false, ctx2) =>
      { ready := false, ctxOut := ctx2, destOut := dest, threw := false }
    | (true, ctx2) => Async.runGetDataInternal q ctx2 dest DataSize

/-- One step of the caller-visible recording interface of `Query`. -/
inductive QOp where
  | endInternal (v : Nat)
  | suspend (v : Nat)
  | advance
  deriving DecidableEq, Repr

/-- Running a sequence of recording operations, threading the context through
the (possibly blocking) `AdvanceInstance` steps. -/
def runOps : List QOp → QueryState × ImmediateContext →
    QueryState × ImmediateContext
  | [], s => s
  | op :: ops, (q, ctx) =>
    match op with
    | QOp.endInternal v => runOps ops (Query.EndInternal v q, ctx)
    | QOp.suspend v => runOps ops (Query.Suspend v q, ctx)
    | QOp.advance => runOps ops (Query.AdvanceInstance q ctx)

/-- Recording a list of instance values in the Suspend/Resume pattern: each
value is recorded at the current instance (`Suspend`) and the object then
moves on (`AdvanceInstance`), folding on capacity exhaustion. -/
def recordMany : List Nat → QueryState × ImmediateContext →
    QueryState × ImmediateContext
  | [], s => s
  | v :: vs, (q, ctx) =>
    recordMany vs (Query.AdvanceInstance (Query.Suspend v q) ctx)

/-- A context whose batch `1` is being built, nothing completed yet, with
submission succeeding. -/
def ctx0 : ImmediateContext :=
  { commandListID := 1, completedFenceValue := 0, submitFails := false }

/-- First timer scenario state: one completed measurement of raw value
`1000`, ended on a timestamp query with capacity `4`. -/
def timerQuery1 : QueryState :=
  Async.End 1000 (Query.Init EQueryType.timestamp 4) ctx0

/-- Second timer scenario state: a second completed measurement of raw value
`800` on the same object. -/
def timerQuery2 : QueryState := Async.End 800 timerQuery1 ctx0

/-- A context whose `SubmitCommandList` call would fail (allocation or device
failure oracle set). -/
def ctxFail : ImmediateContext :=
  { commandListID := 1, completedFenceValue := 0, submitFails := true }

/-- A query ended inside the batch that `ctxFail` is still building. -/
def qFail : QueryState := Async.End 9 (Query.Init EQueryType.timestamp 4) ctxFail

/-- A capacity-2 query with one recorded instance pending in slot 1, every
slot holding the 64-bit value `5`. -/
def qFold : QueryState :=
  { m_Type := EQueryType.timestamp
    m_InstancesPerQuery := 2
    m_CurrentInstance := 1
    m_EndedCommandListID := 0
    resultBuffer := fun _ => 5 }

/-- A query ended in `ctx0`'s current (not yet submitted) batch `1`. -/
def qUnsubmitted : QueryState :=
  Async.End 7 (Query.Init EQueryType.timestamp 4) ctx0

/-- A context already one batch past the one `qUnsubmitted` ended in:
`commandListID = 2` while the query ended in batch `1`. -/
def ctxAhead : ImmediateContext :=
  { commandListID := 2, completedFenceValue := 0, submitFails := false }

instance : DecidableEq (Except QueryError Nat) := fun a b =>
  match a, b with
  | Except.ok x, Except.ok y =>
    if h : x = y then isTrue (by rw [h])
    else isFalse (by intro hc; injection hc; exact h (by assumption))
  | Except.ok _, Except.error _ => isFalse (by intro hc; injection hc)
  | Except.error _, Except.ok _ => isFalse (by intro hc; injection hc)
  | Except.error x, Except.error y =>
    if h : x = y then isTrue (by rw [h])
    else isFalse (by intro hc; injection hc; exact h (by assumption))

/-! ## Helper lemmas -/

theorem writeSlot_self (buf : Nat → Nat) (i v : Nat) :
    writeSlot buf i v i = v := by
  simp [writeSlot]

theorem writeSlot_other (buf : Nat → Nat) (i v j : Nat) (h : j ≠ i) :
    writeSlot buf i v j = buf j := by
  simp [writeSlot, h]

/-- Writing a slot at or above `n` does not change the accumulation over the
slots below `n`. -/
theorem accumLoop_writeSlot_high (buf : Nat → Nat) (k v : Nat) :
    ∀ n, n ≤ k → accumLoop (writeSlot buf k v) n = accumLoop buf n := by
  intro n
  induction n with
  | zero => intro _; rfl
  | succ m ih =>
    intro h
    have hm : m ≤ k := Nat.le_of_succ_le h
    have hne : m ≠ k := Nat.ne_of_lt (Nat.lt_of_succ_le h)
    simp [accumLoop, ih hm, writeSlot_other buf k v m hne]

/-- The wrapping accumulation loop computes the plain sum modulo `2 ^ 64`. -/
theorem accumLoop_eq_sumRange_mod (buf : Nat → Nat) :
    ∀ n, accumLoop buf n = sumRange buf n % UINT64_MOD := by
  intro n
  induction n with
  | zero => rfl
  | succ m ih =>
    simp only [accumLoop, sumRange, ih, Nat.mod_add_mod]

/-- The in-place fold over slots `1 .. n+1` computes the plain sum of slots
`0 .. n+1` modulo `2 ^ 64` (no assumption on the slots is needed once at
least one wrapping addition happened). -/
theorem foldAcc_succ_eq (buf : Nat → Nat) :
    ∀ n, foldAcc buf (n + 1) = sumRange buf (n + 2) % UINT64_MOD := by
  intro n
  induction n with
  | zero =>
    show (buf 0 + buf 1) % UINT64_MOD = ((0 + buf 0) + buf 1) % UINT64_MOD
    simp
  | succ m ih =>
    show (foldAcc buf (m + 1) + buf (m + 2)) % UINT64_MOD = _
    rw [ih, Nat.mod_add_mod]
    rfl

/-- The in-place fold over slots `1 .. n` computes the plain sum of slots
`0 .. n` modulo `2 ^ 64`, provided slot `0` holds a 64-bit value (as every
slot written by this model does). -/
theorem foldAcc_eq (buf : Nat → Nat) (h : buf 0 < UINT64_MOD) :
    ∀ n, foldAcc buf n = sumRange buf (n + 1) % UINT64_MOD := by
  intro n
  cases n with
  | zero =>
    show buf 0 = ((0 : Nat) + buf 0) % UINT64_MOD
    rw [Nat.zero_add, Nat.mod_eq_of_lt h]
  | succ m => exact foldAcc_succ_eq buf m

/-- One Suspend/Resume recording step (`Suspend` then `AdvanceInstance`) on a
state with at least two instances of capacity keeps the capacity, keeps the
instance counter strictly below it, and extends the accumulated value by the
newly recorded one, modulo `2 ^ 64` — on both the cheap path and the
capacity-exhaustion fold. -/
theorem record_step (v : Nat) (ty : EQueryType) (cap cur eid : Nat)
    (buf : Nat → Nat) (ctx : ImmediateContext) (acc : Nat)
    (hcap : 2 ≤ cap) (hlt : cur < cap)
    (hacc : accumLoop buf cur = acc % UINT64_MOD) :
    (Query.AdvanceInstance (Query.Suspend v ⟨ty, cap, cur, eid, buf⟩) ctx).1.m_InstancesPerQuery
        = cap ∧
    (Query.AdvanceInstance (Query.Suspend v ⟨ty, cap, cur, eid, buf⟩) ctx).1.m_CurrentInstance
        < cap ∧
    accumLoop
        (Query.AdvanceInstance (Query.Suspend v ⟨ty, cap, cur, eid, buf⟩) ctx).1.resultBuffer
        (Query.AdvanceInstance (Query.Suspend v ⟨ty, cap, cur, eid, buf⟩) ctx).1.m_CurrentInstance
      = (acc + v) % UINT64_MOD := by
  have hq1 : Query.Suspend v ⟨ty, cap, cur, eid, buf⟩
      = ⟨ty, cap, cur, eid, writeSlot buf cur (v % UINT64_MOD)⟩ := rfl
  rw [hq1]
  set buf1 := writeSlot buf cur (v % UINT64_MOD) with hbuf1
  have haccum1 : accumLoop buf1 cur = acc % UINT64_MOD := by
    rw [hbuf1, accumLoop_writeSlot_high buf cur _ cur (Nat.le_refl cur)]
    exact hacc
  have hslot1 : buf1 cur = v % UINT64_MOD := writeSlot_self buf cur _
  by_cases hstep : cur + 1 < cap
  · have hadv : Query.AdvanceInstance ⟨ty, cap, cur, eid, buf1⟩ ctx
        = (⟨ty, cap, cur + 1, eid, buf1⟩, ctx) := by
      rw [Query.AdvanceInstance]
      simp [hstep]
    rw [hadv]
    refine ⟨rfl, hstep, ?_⟩
    show (accumLoop buf1 cur + buf1 cur) % UINT64_MOD = (acc + v) % UINT64_MOD
    rw [haccum1, hslot1, Nat.mod_add_mod, Nat.add_mod_mod]
  · have hfold : Query.AdvanceInstance ⟨ty, cap, cur, eid, buf1⟩ ctx
        = (⟨ty, cap, 1, eid, writeSlot buf1 0 (foldAcc buf1 cur)⟩,
           ImmediateContext.WaitForCompletion ctx) := by
      rw [Query.AdvanceInstance]
      simp [hstep]
    rw [hfold]
    refine ⟨rfl, ?_, ?_⟩
    · show (1 : Nat) < cap
      omega
    show (accumLoop (writeSlot buf1 0 (foldAcc buf1 cur)) 0
        + writeSlot buf1 0 (foldAcc buf1 cur) 0) % UINT64_MOD
      = (acc + v) % UINT64_MOD
    rw [writeSlot_self]
    show ((0 : Nat) + foldAcc buf1 cur) % UINT64_MOD = (acc + v) % UINT64_MOD
    rw [Nat.zero_add]
    obtain ⟨m, hm⟩ : ∃ m, cur = m + 1 := ⟨cur - 1, by omega⟩
    rw [hm] at haccum1 hslot1
    rw [hm, foldAcc_succ_eq, Nat.mod_mod_of_dvd _ dvd_rfl]
    have h1 : sumRange buf1 (m + 1) % UINT64_MOD = acc % UINT64_MOD := by
      rw [← accumLoop_eq_sumRange_mod]
      exact haccum1
    calc (sumRange buf1 (m + 1) + buf1 (m + 1)) % UINT64_MOD
        = (sumRange buf1 (m + 1) % UINT64_MOD + buf1 (m + 1) % UINT64_MOD)
            % UINT64_MOD := Nat.add_mod _ _ _
      _ = (acc % UINT64_MOD + (v % UINT64_MOD) % UINT64_MOD) % UINT64_MOD := by
            rw [h1, hslot1]
      _ = (acc % UINT64_MOD + v % UINT64_MOD) % UINT64_MOD := by
            rw [Nat.mod_mod_of_dvd _ dvd_rfl]
      _ = (acc + v) % UINT64_MOD := (Nat.add_mod acc v _).symm

/-- The accumulated-value invariant maintained by the Suspend/Resume recording
pattern: as long as at least two instances fit, the value that
`GetDataInternal` would accumulate equals the plain sum of every value
recorded so far, modulo `2 ^ 64`, no matter how many capacity folds happened
on the way. -/
theorem recordMany_inv (vs : List Nat) :
    ∀ (q : QueryState) (ctx : ImmediateContext) (acc : Nat),
      2 ≤ q.m_InstancesPerQuery →
      q.m_CurrentInstance < q.m_InstancesPerQuery →
      accumLoop q.resultBuffer q.m_CurrentInstance = acc % UINT64_MOD →
      (recordMany vs (q, ctx)).1.m_InstancesPerQuery = q.m_InstancesPerQuery ∧
      (recordMany vs (q, ctx)).1.m_CurrentInstance
        < (recordMany vs (q, ctx)).1.m_InstancesPerQuery ∧
      accumLoop (recordMany vs (q, ctx)).1.resultBuffer
          (recordMany vs (q, ctx)).1.m_CurrentInstance
        = (acc + vs.sum) % UINT64_MOD := by
  induction vs with
  | nil =>
    intro q ctx acc _ hlt hacc
    refine ⟨rfl, hlt, ?_⟩
    simpa using hacc
  | cons v vs ih =>
    intro q ctx acc hcap hlt hacc
    obtain ⟨ty, cap, cur, eid, buf⟩ := q
    simp only [recordMany]
    obtain ⟨h1, h2, h3⟩ := record_step v ty cap cur eid buf ctx acc hcap hlt hacc
    have h :=
      ih (Query.AdvanceInstance (Query.Suspend v ⟨ty, cap, cur, eid, buf⟩) ctx).1
        (Query.AdvanceInstance (Query.Suspend v ⟨ty, cap, cur, eid, buf⟩) ctx).2
        (acc + v) (by rw [h1]; exact hcap) (by rw [h1]; exact h2) h3
    have hsum : acc + (v :: vs).sum = acc + v + vs.sum := by
      simp [List.sum_cons]
      omega
    refine ⟨h.1.trans h1, h.2.1, ?_⟩
    rw [hsum]
    exact h.2.2

/-- `AdvanceInstance` never changes the instance capacity. -/
theorem advanceInstance_cap (q : QueryState) (ctx : ImmediateContext) :
    (Query.AdvanceInstance q ctx).1.m_InstancesPerQuery
      = q.m_InstancesPerQuery := by
  rw [Query.AdvanceInstance]
  split
  · rfl
  · rfl

/-- With at least two instances of capacity, `AdvanceInstance` always leaves
the instance counter strictly below the capacity: the cheap path by its own
guard, the fold path because it resets the counter to `1`. -/
theorem advanceInstance_cur_lt (q : QueryState) (ctx : ImmediateContext)
    (hcap : 2 ≤ q.m_InstancesPerQuery) :
    (Query.AdvanceInstance q ctx).1.m_CurrentInstance
      < (Query.AdvanceInstance q ctx).1.m_InstancesPerQuery := by
  rw [Query.AdvanceInstance]
  split
  · next h =>
    show q.m_CurrentInstance + 1 < q.m_InstancesPerQuery
    exact h
  · show (1 : Nat) < q.m_InstancesPerQuery
    omega

/-- Every recording operation keeps `m_CurrentInstance < m_InstancesPerQuery`
once it holds, provided at least two instances fit: so the assertion guarding
every `Suspend` holds at every reachable state. -/
theorem runOps_inv (ops : List QOp) :
    ∀ (q : QueryState) (ctx : ImmediateContext),
      2 ≤ q.m_InstancesPerQuery →
      q.m_CurrentInstance < q.m_InstancesPerQuery →
      (runOps ops (q, ctx)).1.m_InstancesPerQuery = q.m_InstancesPerQuery ∧
      (runOps ops (q, ctx)).1.m_CurrentInstance
        < (runOps ops (q, ctx)).1.m_InstancesPerQuery := by
  induction ops with
  | nil =>
    intro q ctx _ hlt
    exact ⟨rfl, hlt⟩
  | cons op ops ih =>
    intro q ctx hcap hlt
    cases op with
    | endInternal v =>
      simp only [runOps]
      have h := ih (Query.EndInternal v q) ctx hcap (by
        show (1 : Nat) < q.m_InstancesPerQuery
        omega)
      exact ⟨h.1, h.2⟩
    | suspend v =>
      simp only [runOps]
      exact ih (Query.Suspend v q) ctx hcap hlt
    | advance =>
      simp only [runOps]
      have hcap2 : 2 ≤ (Query.AdvanceInstance q ctx).1.m_InstancesPerQuery := by
        rw [advanceInstance_cap]
        exact hcap
      have h := ih (Query.AdvanceInstance q ctx).1 (Query.AdvanceInstance q ctx).2
        hcap2 (advanceInstance_cur_lt q ctx hcap)
      exact ⟨h.1.trans (advanceInstance_cap q ctx), h.2⟩

/-- With a valid destination size, the timestamp `GetDataInternal` returns the
accumulated value: the destination has just been zeroed, so the final
max-comparison is against `0` and the accumulated value always lands. -/
theorem getDataInternal_ok (q : QueryState) (dest DataSize : Nat)
    (h : 8 ≤ DataSize) :
    Query.GetDataInternal q dest DataSize
      = Except.ok (accumLoop q.resultBuffer q.m_CurrentInstance) := by
  obtain ⟨ty, cap, cur, eid, buf⟩ := q
  cases ty
  show (if DataSize < 8 then Except.error QueryError.invalidArg
    else if accumLoop buf cur > 0 then Except.ok (accumLoop buf cur)
    else Except.ok 0) = Except.ok (accumLoop buf cur)
  rw [if_neg (by omega)]
  by_cases ht : accumLoop buf cur > 0
  · rw [if_pos ht]
  · rw [if_neg ht]
    have hz : accumLoop buf cur = 0 := by omega
    rw [hz]

/-- The tail of `GetData` always reports ready. -/
theorem runGetDataInternal_ready (q : QueryState) (c : ImmediateContext)
    (dest : Option Nat) (DataSize : Nat) :
    (Async.runGetDataInternal q c dest DataSize).ready = true := by
  cases dest with
  | none => rfl
  | some d =>
    simp only [Async.runGetDataInternal]
    by_cases hz : DataSize ≠ 0
    · rw [if_pos hz]
      cases hg : Query.GetDataInternal q d DataSize
      · rfl
      · rfl
    · rw [if_neg hz]

/-- The tail of `GetData` never touches the context. -/
theorem runGetDataInternal_ctxOut (q : QueryState) (c : ImmediateContext)
    (dest : Option Nat) (DataSize : Nat) :
    (Async.runGetDataInternal q c dest DataSize).ctxOut = c := by
  cases dest with
  | none => rfl
  | some d =>
    simp only [Async.runGetDataInternal]
    by_cases hz : DataSize ≠ 0
    · rw [if_pos hz]
      cases hg : Query.GetDataInternal q d DataSize
      · rfl
      · rfl
    · rw [if_neg hz]

/-! ## Claims -/

/-- C1 (counterexample): the claim that a second `GetData` into a destination
pre-populated with `1200` leaves it unchanged is false: on the state reached
by two successive completed timestamp measurements of raw values `1000` and
`800`, `GetDataInternal` overwrites the pre-populated `1200` with `800`,
because the destination is zero-initialized before the max-comparison. -/
theorem timestamp_getData_dest_not_preserved :
    Query.GetDataInternal timerQuery2 1200 8 = Except.ok 800 ∧
    Query.GetDataInternal timerQuery2 1200 8 ≠ Except.ok 1200 := by
  exact ⟨by decide, by decide⟩

/-- C1 (amended): for the timestamp kind, `GetData` zero-initializes the
destination first, so the max-comparison runs against `0`, not against the
caller's pre-populated contents: the result is always the accumulated value,
independent of the destination's prior value.  In the two-measurement
scenario (raw values `1000` then `800`), the first `GetData` into a
destination holding `0` returns `1000` and the second `GetData` into a
destination pre-populated with `1200` returns `800`, not `1200`. -/
theorem timestamp_getData_zeroes_destination (q : QueryState)
    (dest DataSize : Nat) (h : 8 ≤ DataSize) :
    Query.GetDataInternal q dest DataSize
        = Except.ok (accumLoop q.resultBuffer q.m_CurrentInstance) ∧
    Query.GetDataInternal timerQuery1 0 8 = Except.ok 1000 ∧
    Query.GetDataInternal timerQuery2 1200 8 = Except.ok 800 :=
  ⟨getDataInternal_ok q dest DataSize h, by decide, by decide⟩

/-- C1 (witness): the amended theorem applied at the second-measurement state
with destination `1200` and size `8`; the accumulated value there is `800`. -/
theorem timestamp_getData_zeroes_destination_witness :
    (8 : Nat) ≤ 8 ∧
    Query.GetDataInternal timerQuery2 1200 8
        = Except.ok (accumLoop timerQuery2.resultBuffer
            timerQuery2.m_CurrentInstance) ∧
    accumLoop timerQuery2.resultBuffer timerQuery2.m_CurrentInstance = 800 :=
  ⟨by omega,
    (timestamp_getData_zeroes_destination timerQuery2 1200 8 (by omega)).1,
    by decide⟩

/-- C2: recording more instances than the capacity yields the same final
`GetData` result as summing all recorded values directly (modulo `2 ^ 64`):
for every capacity of at least two instances and every list of
`instanceCapacity + k` raw values (`k ≥ 1`), recording them all in the
Suspend/AdvanceInstance pattern and then reading gives exactly the plain sum
of the list, regardless of when capacity folds occurred. -/
theorem record_overflow_sum (ty : EQueryType) (cap k : Nat) (vs : List Nat)
    (ctx : ImmediateContext) (dest : Nat)
    (hcap : 2 ≤ cap) (hk : 1 ≤ k) (hlen : vs.length = cap + k) :
    Query.GetDataInternal (recordMany vs (Query.Init ty cap, ctx)).1 dest 8
      = Except.ok (vs.sum % UINT64_MOD) := by
  have h0 : accumLoop (Query.Init ty cap).resultBuffer
      (Query.Init ty cap).m_CurrentInstance = 0 % UINT64_MOD := by
    show accumLoop (fun _ => 0) 0 = 0 % UINT64_MOD
    rfl
  obtain ⟨hcapEq, hlt, hacc⟩ :=
    recordMany_inv vs (Query.Init ty cap) ctx 0 hcap
      (by show (0 : Nat) < cap; omega) h0
  rw [getDataInternal_ok _ dest 8 (by omega), hacc, Nat.zero_add]

/-- C2 (witness): the concrete scenario — capacity `4`, values
`[10, 20, 30, 40]` and one more value `5` triggering the fold — reads back
`105`, the direct sum. -/
theorem record_overflow_sum_witness :
    (2 : Nat) ≤ 4 ∧ (1 : Nat) ≤ 1 ∧
    ([10, 20, 30, 40, 5] : List Nat).length = 4 + 1 ∧
    Query.GetDataInternal
        (recordMany [10, 20, 30, 40, 5]
          (Query.Init EQueryType.timestamp 4, ctx0)).1 0 8
      = Except.ok (([10, 20, 30, 40, 5] : List Nat).sum % UINT64_MOD) ∧
    ([10, 20, 30, 40, 5] : List Nat).sum % UINT64_MOD = 105 :=
  ⟨by omega, by omega, by decide,
    record_overflow_sum EQueryType.timestamp 4 1 [10, 20, 30, 40, 5] ctx0 0
      (by omega) (by omega) (by decide),
    by decide⟩

/-- C3: when the operation's work is not yet submitted
(`m_EndedCommandListID` equals the current command-list ID) or the completed
fence is behind it, `GetData` with `DoNotFlush = true` and
`AsyncGetData = false` returns not-ready, performs no submission (the
context is returned untouched, so nothing blocks), writes nothing to the
destination, and throws nothing. -/
theorem getData_doNotFlush_not_ready (q : QueryState)
    (ctx : ImmediateContext) (dest : Option Nat) (DataSize : Nat)
    (h : q.m_EndedCommandListID = ctx.commandListID ∨
      ctx.completedFenceValue < q.m_EndedCommandListID) :
    Async.GetData q ctx dest DataSize true false
      = { ready := false, ctxOut := ctx, destOut := dest, threw := false } := by
  have hfp : Async.FlushAndPrep q ctx true = (false, ctx) := by
    by_cases h1 : q.m_EndedCommandListID = ctx.commandListID
    · simp [Async.FlushAndPrep, h1]
    · have h2 : ctx.completedFenceValue < q.m_EndedCommandListID :=
        h.resolve_left h1
      simp [Async.FlushAndPrep, h1, Async.fenceCheck, h2]
  simp [Async.GetData, hfp]

/-- C3 (witness): the claim's theorem applied to a query ended in the batch
`ctx0` is still building. -/
theorem getData_doNotFlush_not_ready_witness :
    (timerQuery1.m_EndedCommandListID = ctx0.commandListID ∨
      ctx0.completedFenceValue < timerQuery1.m_EndedCommandListID) ∧
    Async.GetData timerQuery1 ctx0 (some 5) 8 true false
      = { ready := false, ctxOut := ctx0, destOut := some 5, threw := false } :=
  ⟨Or.inl (by decide),
    getData_doNotFlush_not_ready timerQuery1 ctx0 (some 5) 8
      (Or.inl (by decide))⟩

/-- C4: when the operation's work is still in the batch being built and
forcing submission fails (the submission oracle reports an allocation or
device failure, i.e. `SubmitCommandList` throws), `FlushAndPrep` returns
`false` (not ready) with the context unchanged rather than propagating the
failure — the `noexcept` method catches `_com_error` and `bad_alloc`; in
this total model no exception can escape. -/
theorem flushAndPrep_submit_failure_not_ready (q : QueryState)
    (ctx : ImmediateContext)
    (hpend : q.m_EndedCommandListID = ctx.commandListID)
    (hfail : ctx.submitFails = true) :
    Async.FlushAndPrep q ctx false = (false, ctx) := by
  simp [Async.FlushAndPrep, hpend, ImmediateContext.SubmitCommandList, hfail]

/-- C4 (witness): the claim's theorem applied to a query pending in a
context whose submission fails. -/
theorem flushAndPrep_submit_failure_not_ready_witness :
    qFail.m_EndedCommandListID = ctxFail.commandListID ∧
    ctxFail.submitFails = true ∧
    Async.FlushAndPrep qFail ctxFail false = (false, ctxFail) :=
  ⟨by decide, by decide,
    flushAndPrep_submit_failure_not_ready qFail ctxFail (by decide) (by decide)⟩

/-- C5: `GetDataInternal` called with a destination size below 8 bytes on the
8-byte timestamp kind fails with `E_INVALIDARG` (the throw happens before
any write), and the destination buffer's contents are unchanged on every
`GetData` path around it. -/
theorem getDataInternal_small_size_invalidarg (q : QueryState)
    (d DataSize : Nat) (h : DataSize < 8) :
    Query.GetDataInternal q d DataSize = Except.error QueryError.invalidArg ∧
    (∀ (ctx : ImmediateContext) (dnf asy : Bool),
      (Async.GetData q ctx (some d) DataSize dnf asy).destOut = some d) := by
  have herr : Query.GetDataInternal q d DataSize
      = Except.error QueryError.invalidArg := by
    obtain ⟨ty, cap, cur, eid, buf⟩ := q
    cases ty
    show (if DataSize < 8 then Except.error QueryError.invalidArg
      else if accumLoop buf cur > 0 then Except.ok (accumLoop buf cur)
      else Except.ok 0) = Except.error QueryError.invalidArg
    rw [if_pos h]
  have hrun : ∀ c : ImmediateContext,
      (Async.runGetDataInternal q c (some d) DataSize).destOut = some d := by
    intro c
    simp only [Async.runGetDataInternal]
    by_cases hz : DataSize ≠ 0
    · rw [if_pos hz, herr]
    · rw [if_neg hz]
  refine ⟨herr, ?_⟩
  intro ctx dnf asy
  cases asy
  · rcases hfp : Async.FlushAndPrep q ctx dnf with ⟨b, c2⟩
    cases b
    · simp [Async.GetData, hfp]
    · simp [Async.GetData, hfp, hrun c2]
  · simp [Async.GetData, hrun ctx]

/-- C5 (witness): the claim's theorem applied with size `4` on the
second-measurement state. -/
theorem getDataInternal_small_size_invalidarg_witness :
    (4 : Nat) < 8 ∧
    Query.GetDataInternal timerQuery2 7 4
        = Except.error QueryError.invalidArg ∧
    (Async.GetData timerQuery2 ctx0 (some 7) 4 true false).destOut = some 7 :=
  ⟨by omega,
    (getDataInternal_small_size_invalidarg timerQuery2 7 4 (by omega)).1,
    (getDataInternal_small_size_invalidarg timerQuery2 7 4 (by omega)).2
      ctx0 true false⟩

/-- C6: on the capacity-exhausted branch of `AdvanceInstance`
(`m_CurrentInstance + 1 = m_InstancesPerQuery`), after the fold instance 0's
counter equals the (64-bit wrapped) sum of the previous values of instances
`0` through `m_CurrentInstance`, every other instance slot is untouched, and
`m_CurrentInstance` is reset to `1` (not `0`), so the next recorded instance
contributes on top of the accumulated baseline in slot 0. -/
theorem advanceInstance_fold_into_instance0 (q : QueryState)
    (ctx : ImmediateContext)
    (hfull : q.m_CurrentInstance + 1 = q.m_InstancesPerQuery)
    (hb : q.resultBuffer 0 < UINT64_MOD) :
    (Query.AdvanceInstance q ctx).1.resultBuffer 0
        = sumRange q.resultBuffer (q.m_CurrentInstance + 1) % UINT64_MOD ∧
    (∀ j, 1 ≤ j →
      (Query.AdvanceInstance q ctx).1.resultBuffer j = q.resultBuffer j) ∧
    (Query.AdvanceInstance q ctx).1.m_CurrentInstance = 1 := by
  have hnot : ¬ (q.m_CurrentInstance + 1 < q.m_InstancesPerQuery) := by omega
  rw [Query.AdvanceInstance, if_neg hnot]
  refine ⟨?_, ?_, rfl⟩
  · show writeSlot q.resultBuffer 0
        (foldAcc q.resultBuffer q.m_CurrentInstance) 0 = _
    rw [writeSlot_self, foldAcc_eq q.resultBuffer hb]
  · intro j hj
    show writeSlot q.resultBuffer 0
        (foldAcc q.resultBuffer q.m_CurrentInstance) j = q.resultBuffer j
    exact writeSlot_other _ _ _ j (by omega)

/-- C6 (witness): the claim's theorem applied to a full capacity-2 query
whose slots all hold `5`: the fold writes `10` into slot 0, leaves slot 1 at
`5`, and resets the instance counter to `1`. -/
theorem advanceInstance_fold_into_instance0_witness :
    qFold.m_CurrentInstance + 1 = qFold.m_InstancesPerQuery ∧
    qFold.resultBuffer 0 < UINT64_MOD ∧
    (Query.AdvanceInstance qFold ctx0).1.resultBuffer 0
        = sumRange qFold.resultBuffer (qFold.m_CurrentInstance + 1)
            % UINT64_MOD ∧
    sumRange qFold.resultBuffer (qFold.m_CurrentInstance + 1) % UINT64_MOD
        = 10 ∧
    (Query.AdvanceInstance qFold ctx0).1.resultBuffer 1
        = qFold.resultBuffer 1 ∧
    (Query.AdvanceInstance qFold ctx0).1.m_CurrentInstance = 1 :=
  ⟨by decide, by decide,
    (advanceInstance_fold_into_instance0 qFold ctx0 (by decide) (by decide)).1,
    by decide,
    (advanceInstance_fold_into_instance0 qFold ctx0 (by decide) (by decide)).2.1
      1 (by omega),
    (advanceInstance_fold_into_instance0 qFold ctx0 (by decide)
      (by decide)).2.2⟩

/-- C7 (counterexample): with `instanceCapacity = 1` the invariant is not
re-established: starting from an initialized capacity-1 query (where
`AdvanceInstance`'s own entry assertion `0 < 1` holds), a single
`AdvanceInstance` leaves `m_CurrentInstance = 1`, violating
`m_CurrentInstance < m_InstancesPerQuery` — the very assertion the code
itself places at the end of `AdvanceInstance` and before every `Suspend`. -/
theorem advanceInstance_capacity_one_violates :
    (Query.Init EQueryType.timestamp 1).m_CurrentInstance
        < (Query.Init EQueryType.timestamp 1).m_InstancesPerQuery ∧
    ¬ ((runOps [QOp.advance]
          (Query.Init EQueryType.timestamp 1, ctx0)).1.m_CurrentInstance
        < (runOps [QOp.advance]
            (Query.Init EQueryType.timestamp 1, ctx0)).1.m_InstancesPerQuery) := by
  exact ⟨by decide, by decide⟩

/-- C7 (amended): with `instanceCapacity ≥ 2`, for every sequence of
`EndInternal`, `Suspend`, and `AdvanceInstance` calls starting from an
initialized query, `m_CurrentInstance < m_InstancesPerQuery` holds at every
reachable state — in particular immediately before every `Suspend` — because
`AdvanceInstance` re-establishes it on both of its paths. -/
theorem currentInstance_lt_capacity_inv (ty : EQueryType) (cap : Nat)
    (ops : List QOp) (ctx : ImmediateContext) (hcap : 2 ≤ cap) :
    (runOps ops (Query.Init ty cap, ctx)).1.m_CurrentInstance
      < (runOps ops (Query.Init ty cap, ctx)).1.m_InstancesPerQuery :=
  (runOps_inv ops (Query.Init ty cap) ctx hcap
    (by show (0 : Nat) < cap; omega)).2

/-- C7 (witness): the amended invariant at capacity `2` over a sequence
exercising `EndInternal`, `Suspend`, and both `AdvanceInstance` paths. -/
theorem currentInstance_lt_capacity_inv_witness :
    (2 : Nat) ≤ 2 ∧
    (runOps [QOp.endInternal 3, QOp.suspend 4, QOp.advance, QOp.suspend 6,
          QOp.advance]
        (Query.Init EQueryType.timestamp 2, ctx0)).1.m_CurrentInstance
      < (runOps [QOp.endInternal 3, QOp.suspend 4, QOp.advance, QOp.suspend 6,
            QOp.advance]
          (Query.Init EQueryType.timestamp 2, ctx0)).1.m_InstancesPerQuery :=
  ⟨by omega,
    currentInstance_lt_capacity_inv EQueryType.timestamp 2
      [QOp.endInternal 3, QOp.suspend 4, QOp.advance, QOp.suspend 6,
        QOp.advance] ctx0 (by omega)⟩

/-- C8 (counterexample): a query whose `End` was recorded in the batch the
context is still building is not ready after `waitForAllWorkComplete`: the
wait only covers submitted batches, so `GetData` returns `false` both with
`DoNotFlush = true` (fail-fast branch) and with `DoNotFlush = false` (the
forced submission does not wait for completion). -/
theorem getData_after_wait_unsubmitted_not_ready :
    (Async.GetData qUnsubmitted (ImmediateContext.WaitForCompletion ctx0)
        (some 0) 8 true false).ready = false ∧
    (Async.GetData qUnsubmitted (ImmediateContext.WaitForCompletion ctx0)
        (some 0) 8 false false).ready = false := by
  exact ⟨by decide, by decide⟩

/-- C8 (amended): `GetData` called after `waitForAllWorkComplete` returns
ready provided the operation's work had been submitted before the wait
(its `m_EndedCommandListID` is below the current command-list ID); for an
operation still pending in the unsubmitted current batch, the wait does not
cover it and `GetData` reports not-ready. -/
theorem getData_after_wait_ready_when_submitted (q : QueryState)
    (ctx : ImmediateContext) (dest : Option Nat) (DataSize : Nat) (dnf : Bool)
    (hsub : q.m_EndedCommandListID < ctx.commandListID) :
    (Async.GetData q (ImmediateContext.WaitForCompletion ctx) dest DataSize
        dnf false).ready = true := by
  have hne : ¬ (q.m_EndedCommandListID
      = (ImmediateContext.WaitForCompletion ctx).commandListID) := by
    show ¬ (q.m_EndedCommandListID = ctx.commandListID)
    omega
  have hmax : ctx.commandListID - 1
      ≤ max ctx.completedFenceValue (ctx.commandListID - 1) :=
    le_max_right _ _
  have hfence : ¬ ((ImmediateContext.WaitForCompletion ctx).completedFenceValue
      < q.m_EndedCommandListID) := by
    show ¬ (max ctx.completedFenceValue (ctx.commandListID - 1)
      < q.m_EndedCommandListID)
    omega
  have hfp : Async.FlushAndPrep q (ImmediateContext.WaitForCompletion ctx) dnf
      = (true, ImmediateContext.WaitForCompletion ctx) := by
    rw [Async.FlushAndPrep, if_neg hne, Async.fenceCheck, if_neg hfence]
  simp [Async.GetData, hfp, runGetDataInternal_ready]

/-- C8 (witness): the amended theorem applied to a query ended in batch `1`
read through a context already building batch `2`. -/
theorem getData_after_wait_ready_when_submitted_witness :
    qUnsubmitted.m_EndedCommandListID < ctxAhead.commandListID ∧
    (Async.GetData qUnsubmitted (ImmediateContext.WaitForCompletion ctxAhead)
        (some 0) 8 true false).ready = true :=
  ⟨by decide,
    getData_after_wait_ready_when_submitted qUnsubmitted ctxAhead (some 0) 8
      true (by decide)⟩

/-- C9: `End` first invokes the kind-specific finalization (`EndInternal`,
which resets to instance 0, records the measurement, and advances to
instance 1) and then sets `m_EndedCommandListID` to the owning context's
current epoch (the batch being built); the context itself is only read —
`End` performs no submission and no wait. -/
theorem end_sets_epoch_after_endInternal (v : Nat) (q : QueryState)
    (ctx : ImmediateContext) :
    Async.End v q ctx
        = { Query.EndInternal v q with
            m_EndedCommandListID := ctx.commandListID } ∧
    (Async.End v q ctx).m_EndedCommandListID = ctx.commandListID ∧
    (Async.End v q ctx).m_CurrentInstance = 1 ∧
    (Async.End v q ctx).resultBuffer 0 = v % UINT64_MOD ∧
    ∀ j, j ≠ 0 → (Async.End v q ctx).resultBuffer j = q.resultBuffer j := by
  refine ⟨rfl, rfl, rfl, ?_, ?_⟩
  · show writeSlot q.resultBuffer (Query.QueryIndex 0) (v % UINT64_MOD) 0
        = v % UINT64_MOD
    exact writeSlot_self _ _ _
  · intro j hj
    show writeSlot q.resultBuffer (Query.QueryIndex 0) (v % UINT64_MOD) j
        = q.resultBuffer j
    exact writeSlot_other _ _ _ _ hj

/-- C10: with `AsyncGetData = true` the readiness gate is skipped entirely
(C++ `&&` short-circuits, so `FlushAndPrep` is not even evaluated): for every
operation and context state — submitted or not, completed or not — `GetData`
returns `true`, the context is untouched, and given a non-null destination of
nonzero size the kind-specific extraction runs and its result lands in the
destination. -/
theorem asyncGetData_skips_readiness_gate (q : QueryState)
    (ctx : ImmediateContext) (d DataSize : Nat) (dnf : Bool)
    (hsz : DataSize ≠ 0) :
    (Async.GetData q ctx (some d) DataSize dnf true).ready = true ∧
    (Async.GetData q ctx (some d) DataSize dnf true).ctxOut = ctx ∧
    ∀ d2, Query.GetDataInternal q d DataSize = Except.ok d2 →
      Async.GetData q ctx (some d) DataSize dnf true
        = { ready := true, ctxOut := ctx, destOut := some d2,
            threw := false } := by
  have hrun : Async.GetData q ctx (some d) DataSize dnf true
      = Async.runGetDataInternal q ctx (some d) DataSize := by
    rw [Async.GetData, if_pos rfl]
  refine ⟨?_, ?_, ?_⟩
  · rw [hrun]
    exact runGetDataInternal_ready q ctx (some d) DataSize
  · rw [hrun]
    exact runGetDataInternal_ctxOut q ctx (some d) DataSize
  · intro d2 hg
    rw [hrun]
    simp only [Async.runGetDataInternal]
    rw [if_pos hsz, hg]

/-- C10 (witness): the claim's theorem applied on the second-measurement
state through a context whose batch is still unsubmitted: the extraction
runs anyway and returns `800`. -/
theorem asyncGetData_skips_readiness_gate_witness :
    (8 : Nat) ≠ 0 ∧
    (Async.GetData timerQuery2 ctx0 (some 1200) 8 true true).ready = true ∧
    Async.GetData timerQuery2 ctx0 (some 1200) 8 true true
      = { ready := true, ctxOut := ctx0, destOut := some 800,
          threw := false } :=
  ⟨by omega,
    (asyncGetData_skips_readiness_gate timerQuery2 ctx0 1200 8 true
      (by omega)).1,
    (asyncGetData_skips_readiness_gate timerQuery2 ctx0 1200 8 true
      (by omega)).2.2 800 (by decide)⟩
